import Mathlib

set_option maxHeartbeats 1000000

/-!
Verification of the EMR_KERBEROS_ENABLED compliance rule
(src/python/EMR_KERBEROS_ENABLED/EMR_KERBEROS_ENABLED.py).

Python strings are modeled by Lean strings over their character sequences
(the classification predicates are modeled on the ASCII range, the only
range the rule and its parameters exercise), JSON values as obtained from
json.loads by the inductive type JValue, and Python exceptions by the
PyErr type together with Except.  External collaborators (the cluster
directory, the security configuration store and the findings store) are
passed in as oracles, following the spec, which places them out of scope.
-/

/-- A JSON value as produced by json.loads: strings, integers, booleans,
null, and objects, the latter as association lists with string keys in
insertion order. -/
inductive JValue where
  | str (s : String)
  | int (n : Int)
  | bool (b : Bool)
  | null
  | obj (kvs : List (String × JValue))

/-- The Python exceptions the rule can raise: ValueError carries the name
of the offending parameter (lines 224-233); KeyError, TypeError and
IndexError arise from dict lookups, ill-typed operations and string
indexing respectively. -/
inductive PyErr where
  | valueError (msg : String)
  | keyError
  | typeError
  | indexError
deriving DecidableEq

/-- Lookup in a Python dict modeled as an association list. -/
def dictGet : List (String × JValue) → String → Option JValue
  | [], _ => none
  | (k2, v) :: rest, k => if k2 == k then some v else dictGet rest k

/-- The Python membership test key in d for a dict. -/
def dictHasKey (kvs : List (String × JValue)) (k : String) : Bool :=
  (dictGet kvs k).isSome

/-- A single quote character, written by code point to keep source text free
of quoting ambiguity. -/
def squote : String := String.singleton (Char.ofNat 39)

mutual

/-- Python repr of a JSON value: strings in single quotes (escaping beyond
plain quoting is not exercised by the rule), ints in decimal, True, False,
None, and dicts in brace notation. -/
def pyRepr : JValue → String
  | .str s => squote ++ s ++ squote
  | .int n => toString n
  | .bool b => if b then "True" else "False"
  | .null => "None"
  | .obj kvs => String.singleton (Char.ofNat 123) ++ pyReprPairs kvs ++ String.singleton (Char.ofNat 125)

/-- The comma separated key: value items of a dict repr. -/
def pyReprPairs : List (String × JValue) → String
  | [] => ""
  | [(k, v)] => squote ++ k ++ squote ++ ": " ++ pyRepr v
  | (k, v) :: kv2 :: rest => squote ++ k ++ squote ++ ": " ++ pyRepr v ++ ", " ++ pyReprPairs (kv2 :: rest)

end

/-- The Python str() conversion: the identity on strings, repr on every
other value the rule can meet. -/
def pyStr : JValue → String
  | .str s => s
  | v => pyRepr v

/-- Numeric view used by the order comparison: Python booleans compare as
the integers 0 and 1. -/
def pyNum : JValue → Option Int
  | .int n => some n
  | .bool b => some (if b then 1 else 0)
  | _ => none

/-- The Python comparison a < b on JSON values: numeric against numeric,
string against string (lexicographic); every other combination raises
TypeError, in particular an int against a str as on line 173 when the
TicketLifetimeInHours parameter arrives as a JSON string. -/
def pyLt (a b : JValue) : Except PyErr Bool :=
  match pyNum a, pyNum b with
  | some x, some y => .ok (decide (x < y))
  | _, _ =>
    match a, b with
    | .str x, .str y => .ok (decide (x < y))
    | _, _ => .error .typeError

/-- Python len(): defined for strings and dicts, TypeError otherwise. -/
def pyLen : JValue → Except PyErr Nat
  | .str s => .ok s.length
  | .obj kvs => .ok kvs.length
  | _ => .error .typeError

/-- Whether the first list occurs at the head of the second. -/
def leadingMatch : List Char → List Char → Bool
  | [], _ => true
  | _ :: _, [] => false
  | c :: cs, d :: ds => c == d && leadingMatch cs ds

/-- The Python substring test needle in hay. -/
def substringMem (needle : List Char) : List Char → Bool
  | [] => needle.isEmpty
  | c :: rest => leadingMatch needle (c :: rest) || substringMem needle rest

/-- The Python membership test key in v on a JSON value: dict key lookup
for objects, substring test for strings, TypeError otherwise. -/
def pyMem (key : String) : JValue → Except PyErr Bool
  | .obj kvs => .ok (dictHasKey kvs key)
  | .str s => .ok (substringMem key.toList s.toList)
  | _ => .error .typeError

/-- The Python subscript v[key] for a string key: KeyError on a missing
dict key, TypeError on non-dict values. -/
def pyIndex (v : JValue) (key : String) : Except PyErr JValue :=
  match v with
  | .obj kvs =>
    match dictGet kvs key with
    | some x => .ok x
    | none => .error .keyError
  | _ => .error .typeError

/-- str.isnumeric on a character list, over the ASCII decimal digits (the
only numeric characters the rule exercises): nonempty and all digits. -/
def pyIsNumericChars (l : List Char) : Bool :=
  !l.isEmpty && l.all Char.isDigit

/-- str.isnumeric on a string. -/
def pyIsNumeric (s : String) : Bool := pyIsNumericChars s.toList

/-- str.isupper over the ASCII range: at least one letter and no lowercase
letter. -/
def pyIsUpper (s : String) : Bool :=
  s.toList.any Char.isAlpha && s.toList.all (fun c => !c.isLower)

/-- str.split with a one character separator; on an empty string it yields
one empty segment, as in Python. -/
def pySplit (sep : Char) : List Char → List (List Char)
  | [] => [[]]
  | c :: rest =>
    match pySplit sep rest with
    | [] => [[]]
    | h :: t => if c = sep then [] :: h :: t else (c :: h) :: t

/-- One hostname label against the compiled pattern of line 248,
1 to 63 characters that are letters, digits or hyphens, neither starting
nor ending with a hyphen; the dollar anchor of the pattern also matches
just before one trailing newline, which re.match therefore tolerates. -/
def allowedLabel (label : List Char) : Bool :=
  let body := if label.getLast? == some (Char.ofNat 10) then label.dropLast else label
  decide (1 ≤ body.length) && decide (body.length ≤ 63) &&
    body.all (fun c => c.isAlphanum || c == '-') &&
    body.head? != some '-' && body.getLast? != some '-'

/-- Line 239-240: strip exactly one trailing dot, if present. -/
def strip_trailing_dot (l : List Char) : List Char :=
  if l.getLast? == some '.' then l.dropLast else l

/-- Lines 242-245: with mode FQDN the value splits on a colon; a present
port segment must be numeric (none encodes the early False return), and
validation continues on the first segment alone. -/
def fqdn_host_part : List (List Char) → Option (List Char)
  | [] => some []
  | [h] => some h
  | h :: second :: _ => if pyIsNumericChars second then some h else none

/-- Lines 241-249 on the dot stripped character list: pure, no failure;
the remainder must split into at least two dot separated labels, each
matching allowedLabel. -/
def valid_hostname_chars (l : List Char) (ty : String) : Bool :=
  match (if ty == "FQDN" then fqdn_host_part (pySplit ':' l) else some l) with
  | none => false
  | some h2 =>
    if (pySplit '.' h2).length < 2 then false
    else (pySplit '.' h2).all allowedLabel

/-- is_valid_hostname (lines 236-249).  The length test runs first; the
subscript hostname[-1] then raises IndexError on an empty string and
KeyError on a dict with string keys; the remaining checks never fail. -/
def is_valid_hostname (hostname : JValue) (ty : String) : Except PyErr Bool :=
  match pyLen hostname with
  | .error e => .error e
  | .ok n =>
    if n > 255 then .ok false
    else
      match hostname with
      | .str s =>
        match s.toList.getLast? with
        | none => .error .indexError
        | some _ => .ok (valid_hostname_chars (strip_trailing_dot s.toList) ty)
      | .obj _ => .error .keyError
      | _ => .error .typeError

/-- Line 223: TicketLifetimeInHours present and str() of its value not
numeric. -/
def ticket_param_invalid (rule_parameters : List (String × JValue)) : Bool :=
  match dictGet rule_parameters "TicketLifetimeInHours" with
  | none => false
  | some v => !(pyIsNumeric (pyStr v))

/-- Lines 225-227: Realm present and (not uppercase, or not a valid DOMAIN
hostname); by short circuiting, the hostname test only runs when the
uppercase test passed, and it receives the raw value, not its str(). -/
def realm_param_invalid (rule_parameters : List (String × JValue)) : Except PyErr Bool :=
  match dictGet rule_parameters "Realm" with
  | none => .ok false
  | some v =>
    if !(pyIsUpper (pyStr v)) then .ok true
    else
      match is_valid_hostname v "DOMAIN" with
      | .error e => .error e
      | .ok ok => .ok (!ok)

/-- Lines 228-233: a present hostname parameter fails its hostname check
on its raw value. -/
def hostname_param_invalid (rule_parameters : List (String × JValue)) (key ty : String) : Except PyErr Bool :=
  match dictGet rule_parameters key with
  | none => .ok false
  | some v =>
    match is_valid_hostname v ty with
    | .error e => .error e
    | .ok ok => .ok (!ok)

/-- evaluate_parameters (lines 219-234): an empty input map returns the
empty dict; otherwise the first invalid parameter, in source order, raises
ValueError carrying its name, and a fully valid map is returned as is. -/
def evaluate_parameters (rule_parameters : List (String × JValue)) : Except PyErr (List (String × JValue)) :=
  if rule_parameters.isEmpty then .ok []
  else if ticket_param_invalid rule_parameters then .error (.valueError "TicketLifetimeInHours")
  else
    match realm_param_invalid rule_parameters with
    | .error e => .error e
    | .ok true => .error (.valueError "Realm")
    | .ok false =>
      match hostname_param_invalid rule_parameters "Domain" "DOMAIN" with
      | .error e => .error e
      | .ok true => .error (.valueError "Domain")
      | .ok false =>
        match hostname_param_invalid rule_parameters "AdminServer" "FQDN" with
        | .error e => .error e
        | .ok true => .error (.valueError "AdminServer")
        | .ok false =>
          match hostname_param_invalid rule_parameters "KdcServer" "FQDN" with
          | .error e => .error e
          | .ok true => .error (.valueError "KdcServer")
          | .ok false => .ok rule_parameters

def DEFAULT_RESOURCE_TYPE : String := "AWS::EMR::Cluster"

/-- One evaluation dictionary as produced by build_evaluation (lines
285-302); ann none means the Annotation key is absent. -/
structure Evaluation where
  ann : Option String
  complianceResourceType : String
  complianceResourceId : String
  complianceType : String
  orderingTimestamp : String
deriving DecidableEq

/-- build_evaluation: the ordering timestamp is the notificationCreationTime
taken from the invoking event (line 301), not computed. -/
def build_evaluation (resource_id compliance_type notification_creation_time resource_type : String)
    (ann : Option String) : Evaluation :=
  ⟨ann, resource_type, resource_id, compliance_type, notification_creation_time⟩

/-- The fields of a described cluster that the rule reads (lines 151-162):
the status state and the optionally attached security configuration name. -/
structure DescribedCluster where
  state : String
  securityConfiguration : Option String

/-- Line 153. -/
def terminated_states : List String := ["TERMINATING", "TERMINATED", "TERMINATED_WITH_ERRORS"]

def ann_no_sc : String := "No Security Configuration is attached."
def ann_kerberos : String := "Kerberos Authentication is not enabled in the Security Configuration."
def ann_ticket : String := "TicketLifetimeInHours is smaller than the specified Rule parameter TicketLifetimeInHours."
def ann_crt : String := "CrossRealmTrustConfiguration is not configured in security configuration."
def ann_realm : String := "Realm is not equal to the specified Rule parameter Realm."
def ann_domain : String := "Domain is not equal to the specified Rule parameter Domain."
def ann_admin_server : String := "AdminServer is not equal to the specified Rule parameter AdminServer."
def ann_kdc_server : String := "KdcServer is not equal to the specified Rule parameter KdcServer."

/-- Lines 165-167: the three clause membership condition, with Python
evaluation order and short circuiting (so the inner subscripts run only
when the preceding membership tests passed). -/
def kerberos_configuration_missing (cluster_sc_details : JValue) : Except PyErr Bool :=
  match pyMem "AuthenticationConfiguration" cluster_sc_details with
  | .error e => .error e
  | .ok false => .ok true
  | .ok true =>
    match pyIndex cluster_sc_details "AuthenticationConfiguration" with
    | .error e => .error e
    | .ok ac =>
      match pyMem "KerberosConfiguration" ac with
      | .error e => .error e
      | .ok false => .ok true
      | .ok true =>
        match pyIndex ac "KerberosConfiguration" with
        | .error e => .error e
        | .ok kc =>
          match pyMem "ClusterDedicatedKdcConfiguration" kc with
          | .error e => .error e
          | .ok m3 => .ok (!m3)

/-- Line 171: the chained subscripts selecting the dedicated KDC block. -/
def kdc_details (cluster_sc_details : JValue) : Except PyErr JValue :=
  match pyIndex cluster_sc_details "AuthenticationConfiguration" with
  | .error e => .error e
  | .ok ac =>
    match pyIndex ac "KerberosConfiguration" with
    | .error e => .error e
    | .ok kc => pyIndex kc "ClusterDedicatedKdcConfiguration"

/-- The value of not str(doc_val).__eq__(param_val): for a string
parameter this is a plain string mismatch test; for any other parameter
str.__eq__ returns NotImplemented, which is truthy, so the negation is
False and the mismatch branch never fires. -/
def str_eq_guard_fails (doc_val param_val : JValue) : Bool :=
  match param_val with
  | .str s => pyStr doc_val != s
  | _ => false

/-- Lines 172-175: the ticket lifetime threshold test; some verdict means
the NON_COMPLIANT early continue was taken.  The document side is an
unguarded subscript; the parameter side is guarded by the membership
test. -/
def ticket_lifetime_check (notification_creation_time : String)
    (rule_parameters : List (String × JValue)) (sc_kerberos_details : JValue)
    (cluster_id : String) : Except PyErr (Option Evaluation) :=
  match dictGet rule_parameters "TicketLifetimeInHours" with
  | none => .ok none
  | some param_ticket =>
    match pyIndex sc_kerberos_details "TicketLifetimeInHours" with
    | .error e => .error e
    | .ok doc_ticket =>
      match pyLt doc_ticket param_ticket with
      | .error e => .error e
      | .ok true => .ok (some (build_evaluation cluster_id "NON_COMPLIANT" notification_creation_time DEFAULT_RESOURCE_TYPE (some ann_ticket)))
      | .ok false => .ok none

/-- One of the four cross realm field tests (lines 183-201); the document
side subscript is unguarded. -/
def cross_realm_field_check (notification_creation_time : String)
    (rule_parameters : List (String × JValue)) (crt : JValue)
    (cluster_id field ann_text : String) : Except PyErr (Option Evaluation) :=
  match dictGet rule_parameters field with
  | none => .ok none
  | some param_val =>
    match pyIndex crt field with
    | .error e => .error e
    | .ok doc_val =>
      if str_eq_guard_fails doc_val param_val then
        .ok (some (build_evaluation cluster_id "NON_COMPLIANT" notification_creation_time DEFAULT_RESOURCE_TYPE (some ann_text)))
      else .ok none

/-- Lines 177-204: from the CrossRealmTrustConfiguration presence test
through the four field tests, in source order, to the final COMPLIANT
verdict. -/
def cross_realm_stage (notification_creation_time : String)
    (rule_parameters : List (String × JValue)) (sc_kerberos_details : JValue)
    (cluster_id : String) : Except PyErr Evaluation :=
  match pyMem "CrossRealmTrustConfiguration" sc_kerberos_details with
  | .error e => .error e
  | .ok false => .ok (build_evaluation cluster_id "NON_COMPLIANT" notification_creation_time DEFAULT_RESOURCE_TYPE (some ann_crt))
  | .ok true =>
    match pyIndex sc_kerberos_details "CrossRealmTrustConfiguration" with
    | .error e => .error e
    | .ok crt =>
      match cross_realm_field_check notification_creation_time rule_parameters crt cluster_id "Realm" ann_realm with
      | .error e => .error e
      | .ok (some ev) => .ok ev
      | .ok none =>
        match cross_realm_field_check notification_creation_time rule_parameters crt cluster_id "Domain" ann_domain with
        | .error e => .error e
        | .ok (some ev) => .ok ev
        | .ok none =>
          match cross_realm_field_check notification_creation_time rule_parameters crt cluster_id "AdminServer" ann_admin_server with
          | .error e => .error e
          | .ok (some ev) => .ok ev
          | .ok none =>
            match cross_realm_field_check notification_creation_time rule_parameters crt cluster_id "KdcServer" ann_kdc_server with
            | .error e => .error e
            | .ok (some ev) => .ok ev
            | .ok none => .ok (build_evaluation cluster_id "COMPLIANT" notification_creation_time DEFAULT_RESOURCE_TYPE none)

/-- The per cluster body of evaluate_compliance (lines 150-204).  The
security configuration store is consulted only on the branch where a
configuration name is attached and the cluster is not terminated. -/
def evaluate_cluster (notification_creation_time : String)
    (rule_parameters : List (String × JValue))
    (describe_security_configuration : String → JValue)
    (cluster_id : String) (described_cluster : DescribedCluster) : Except PyErr Evaluation :=
  if terminated_states.contains described_cluster.state then
    .ok (build_evaluation cluster_id "NOT_APPLICABLE" notification_creation_time DEFAULT_RESOURCE_TYPE none)
  else
    match described_cluster.securityConfiguration with
    | none => .ok (build_evaluation cluster_id "NON_COMPLIANT" notification_creation_time DEFAULT_RESOURCE_TYPE (some ann_no_sc))
    | some sc_name =>
      match kerberos_configuration_missing (describe_security_configuration sc_name) with
      | .error e => .error e
      | .ok true => .ok (build_evaluation cluster_id "NON_COMPLIANT" notification_creation_time DEFAULT_RESOURCE_TYPE (some ann_kerberos))
      | .ok false =>
        match kdc_details (describe_security_configuration sc_name) with
        | .error e => .error e
        | .ok sc_kerberos_details =>
          match ticket_lifetime_check notification_creation_time rule_parameters sc_kerberos_details cluster_id with
          | .error e => .error e
          | .ok (some ev) => .ok ev
          | .ok none => cross_realm_stage notification_creation_time rule_parameters sc_kerberos_details cluster_id

/-- The loop of evaluate_compliance (lines 148-204): one evaluation per
cluster in enumeration order, aborting on the first raised exception. -/
def evaluate_all (notification_creation_time : String)
    (rule_parameters : List (String × JValue))
    (describe_cluster : String → DescribedCluster)
    (describe_security_configuration : String → JValue) : List String → Except PyErr (List Evaluation)
  | [] => .ok []
  | cluster_id :: rest =>
    match evaluate_cluster notification_creation_time rule_parameters describe_security_configuration cluster_id (describe_cluster cluster_id) with
    | .error e => .error e
    | .ok ev =>
      match evaluate_all notification_creation_time rule_parameters describe_cluster describe_security_configuration rest with
      | .error e => .error e
      | .ok evs => .ok (ev :: evs)

/-- evaluate_compliance (lines 139-206) over a snapshot given by the
enumerated cluster ids and the two store oracles; ok none models the
Python None returned for an empty cluster list (line 146). -/
def evaluate_compliance (notification_creation_time : String)
    (rule_parameters : List (String × JValue)) (cluster_ids : List String)
    (describe_cluster : String → DescribedCluster)
    (describe_security_configuration : String → JValue) : Except PyErr (Option (List Evaluation)) :=
  if cluster_ids = [] then .ok none
  else
    match evaluate_all notification_creation_time rule_parameters describe_cluster describe_security_configuration cluster_ids with
    | .error e => .error e
    | .ok evs => .ok (some evs)

/-- clean_up_old_evaluations (lines 432-441).  The paginated fetch of
previous results is external, so the list of previously reported resource
ids (one entry per previous evaluation result, in fetched order) is an
argument.  The inner fold is the newer_founded flag loop of lines
434-437. -/
def clean_up_old_evaluations (notification_creation_time : String)
    (latest_evaluations : List Evaluation) (old_eval_list : List String) : List Evaluation :=
  (old_eval_list.foldl (fun cleaned old_resource_id =>
    if !(latest_evaluations.foldl
          (fun found latest_eval => if old_resource_id == latest_eval.complianceResourceId then true else found)
          false) then
      cleaned ++ [build_evaluation old_resource_id "NOT_APPLICABLE" notification_creation_time DEFAULT_RESOURCE_TYPE none]
    else cleaned) []) ++ latest_evaluations

/-- Line 488. -/
def required_evaluation_fields : List String :=
  ["ComplianceResourceType", "ComplianceResourceId", "ComplianceType", "OrderingTimestamp"]

/-- Lines 487-491: the missing fields flag computed for one custom
evaluation dict. -/
def evaluation_missing_fields (evaluation : List (String × JValue)) : Bool :=
  required_evaluation_fields.foldl
    (fun missing field => if !(dictHasKey evaluation field) then true else missing) false

/-- Lines 485-494: the list branch of lambda_handler keeps exactly the
evaluations with no missing field, in order, and never aborts on a
malformed one. -/
def filter_list_compliance_result (compliance_result : List (List (String × JValue))) : List (List (String × JValue)) :=
  compliance_result.foldl
    (fun latest_evaluations evaluation =>
      if !(evaluation_missing_fields evaluation) then latest_evaluations ++ [evaluation]
      else latest_evaluations) []

/-- Whether a validator outcome is the structured InvalidParameter failure
of the spec: a ValueError naming one of the five recognized parameters. -/
def invalid_parameter_outcome : Except PyErr (List (String × JValue)) → Bool
  | .error (.valueError n) => ["TicketLifetimeInHours", "Realm", "Domain", "AdminServer", "KdcServer"].contains n
  | _ => false

/-- Whether a validator outcome is a normal return. -/
def ok_outcome : Except PyErr (List (String × JValue)) → Bool
  | .ok _ => true
  | _ => false

/-- The cross realm trust block of the worked example of spec section 8. -/
def example_crt : JValue :=
  .obj [("Realm", .str "EXAMPLE.COM"), ("Domain", .str "example.com"),
        ("AdminServer", .str "admin.example.com:749"), ("KdcServer", .str "kdc.example.com:88")]

/-- The dedicated KDC block of the worked example: ticket lifetime 10. -/
def example_kdc : JValue :=
  .obj [("TicketLifetimeInHours", .int 10), ("CrossRealmTrustConfiguration", example_crt)]

def example_kc : JValue := .obj [("ClusterDedicatedKdcConfiguration", example_kdc)]

def example_ac : JValue := .obj [("KerberosConfiguration", example_kc)]

/-- The worked example document: Kerberos configured, TicketLifetimeInHours
10, cross realm trust fields populated. -/
def example_document : JValue := .obj [("AuthenticationConfiguration", example_ac)]

/-- Parameters matching the worked example document on every field, with a
chosen integer ticket lifetime parameter. -/
def example_params (ticket : Int) : List (String × JValue) :=
  [("TicketLifetimeInHours", .int ticket), ("Realm", .str "EXAMPLE.COM"),
   ("Domain", .str "example.com"), ("AdminServer", .str "admin.example.com:749"),
   ("KdcServer", .str "kdc.example.com:88")]

/-- A document whose dedicated KDC block is present but lacks the
TicketLifetimeInHours key. -/
def document_without_ticket_key : JValue :=
  .obj [("AuthenticationConfiguration", .obj [("KerberosConfiguration", .obj
    [("ClusterDedicatedKdcConfiguration", .obj [])])])]

/-- A document with an empty cross realm trust block: the Realm key is
absent. -/
def document_without_realm_key : JValue :=
  .obj [("AuthenticationConfiguration", .obj [("KerberosConfiguration", .obj
    [("ClusterDedicatedKdcConfiguration", .obj
      [("TicketLifetimeInHours", .int 100), ("CrossRealmTrustConfiguration", .obj [])])])])]

/-- A running cluster with an attached security configuration. -/
def running_with_sc : DescribedCluster := ⟨"RUNNING", some "kerberos-sc"⟩

/-! ## General helper lemmas -/

theorem foldl_append_filter {α : Type} (p : α → Bool) (xs acc : List α) :
    xs.foldl (fun l x => if p x then l ++ [x] else l) acc = acc ++ xs.filter p := by
  induction xs generalizing acc with
  | nil => simp
  | cons x xs ih => cases h : p x <;> simp [List.filter_cons, h, ih]

theorem foldl_append_filter_map {α β : Type} (p : α → Bool) (f : α → β) (xs : List α) (acc : List β) :
    xs.foldl (fun l x => if p x then l ++ [f x] else l) acc = acc ++ (xs.filter p).map f := by
  induction xs generalizing acc with
  | nil => simp
  | cons x xs ih => cases h : p x <;> simp [List.filter_cons, h, ih]

theorem foldl_flag_any {α : Type} (p : α → Bool) (xs : List α) (b : Bool) :
    xs.foldl (fun found x => if p x then true else found) b = (b || xs.any p) := by
  induction xs generalizing b with
  | nil => simp
  | cons x xs ih =>
    rw [List.foldl_cons, List.any_cons, ih]
    cases h : p x <;> simp [h]

theorem dictGet_mem {ps : List (String × JValue)} {k : String} {v : JValue}
    (h : dictGet ps k = some v) : (k, v) ∈ ps := by
  induction ps with
  | nil => simp [dictGet] at h
  | cons kv rest ih =>
    obtain ⟨k2, v2⟩ := kv
    rw [dictGet] at h
    split at h
    · next hk =>
      obtain rfl : v2 = v := by injection h
      obtain rfl : k2 = k := by exact eq_of_beq hk
      exact List.mem_cons_self _ _
    · exact List.mem_cons_of_mem _ (ih h)

@[simp] theorem build_evaluation_resource_id (rid ct ts rt : String) (a : Option String) :
    (build_evaluation rid ct ts rt a).complianceResourceId = rid := rfl

@[simp] theorem build_evaluation_compliance_type (rid ct ts rt : String) (a : Option String) :
    (build_evaluation rid ct ts rt a).complianceType = ct := rfl

theorem string_toList_ne_nil {s : String} (h : s ≠ "") : s.toList ≠ [] := by
  intro hl
  apply h
  obtain ⟨data⟩ := s
  have hd : data = [] := hl
  subst hd
  rfl

/-! ## Structural lemmas about the evaluator -/

theorem ticket_lifetime_check_ok_some {ts : String} {ps : List (String × JValue)} {kdc : JValue}
    {cid : String} {ev : Evaluation}
    (h : ticket_lifetime_check ts ps kdc cid = .ok (some ev)) : ev.complianceResourceId = cid := by
  unfold ticket_lifetime_check at h
  repeat' split at h
  any_goals exact Except.noConfusion h
  all_goals injection h with h2
  any_goals exact Option.noConfusion h2
  all_goals (injection h2 with h3; subst h3; rfl)

theorem cross_realm_field_check_ok_some {ts : String} {ps : List (String × JValue)} {crt : JValue}
    {cid field at_ : String} {ev : Evaluation}
    (h : cross_realm_field_check ts ps crt cid field at_ = .ok (some ev)) :
    ev.complianceResourceId = cid := by
  unfold cross_realm_field_check at h
  repeat' split at h
  any_goals exact Except.noConfusion h
  all_goals injection h with h2
  any_goals exact Option.noConfusion h2
  all_goals (injection h2 with h3; subst h3; rfl)

theorem cross_realm_stage_ok {ts : String} {ps : List (String × JValue)} {kdc : JValue}
    {cid : String} {ev : Evaluation}
    (h : cross_realm_stage ts ps kdc cid = .ok ev) : ev.complianceResourceId = cid := by
  unfold cross_realm_stage at h
  repeat' split at h
  any_goals exact Except.noConfusion h
  all_goals injection h with h2
  all_goals subst h2
  any_goals rfl
  all_goals exact cross_realm_field_check_ok_some (by assumption)

theorem evaluate_cluster_ok_resource_id {ts : String} {ps : List (String × JValue)}
    {store : String → JValue} {cid : String} {dc : DescribedCluster} {ev : Evaluation}
    (h : evaluate_cluster ts ps store cid dc = .ok ev) : ev.complianceResourceId = cid := by
  unfold evaluate_cluster at h
  repeat' split at h
  any_goals exact Except.noConfusion h
  any_goals exact cross_realm_stage_ok h
  all_goals injection h with h2
  all_goals subst h2
  any_goals rfl
  all_goals exact ticket_lifetime_check_ok_some (by assumption)

/-! ## Reconciler and submission filter lemmas -/

theorem evaluation_missing_fields_eq (evaluation : List (String × JValue)) :
    evaluation_missing_fields evaluation =
      !(required_evaluation_fields.all (fun field => dictHasKey evaluation field)) := by
  unfold evaluation_missing_fields required_evaluation_fields
  simp only [List.foldl_cons, List.foldl_nil, List.all_cons, List.all_nil]
  cases h1 : dictHasKey evaluation "ComplianceResourceType" <;>
    cases h2 : dictHasKey evaluation "ComplianceResourceId" <;>
      cases h3 : dictHasKey evaluation "ComplianceType" <;>
        cases h4 : dictHasKey evaluation "OrderingTimestamp" <;>
          simp [h1, h2, h3, h4]

/-! ## Claim theorems -/

/-- Claim C3: the hostname validator satisfies the six concrete test
vectors of the spec: example.com and ex-ample.co are valid DOMAIN values,
kdc.example.com:88 a valid FQDN; EXAMPLE fails as a single label, -bad.com
fails on a leading hyphen, and kdc.example.com:abc fails on a non numeric
port segment. -/
theorem hostname_test_vectors :
    is_valid_hostname (.str "example.com") "DOMAIN" = .ok true ∧
    is_valid_hostname (.str "ex-ample.co") "DOMAIN" = .ok true ∧
    is_valid_hostname (.str "kdc.example.com:88") "FQDN" = .ok true ∧
    is_valid_hostname (.str "EXAMPLE") "DOMAIN" = .ok false ∧
    is_valid_hostname (.str "-bad.com") "DOMAIN" = .ok false ∧
    is_valid_hostname (.str "kdc.example.com:abc") "FQDN" = .ok false :=
  ⟨rfl, rfl, rfl, rfl, rfl, rfl⟩

/-- Claim C10: the evaluator is partial over documents.  With the
TicketLifetimeInHours parameter set and a document whose dedicated KDC
block lacks that key, and likewise with the Realm parameter set and an
empty cross realm block, the unguarded subscript raises KeyError and no
verdict is produced. -/
theorem evaluator_unguarded_lookup_keyerror :
    evaluate_cluster "t" [("TicketLifetimeInHours", JValue.int 24)]
        (fun _ => document_without_ticket_key) "cl" running_with_sc = .error .keyError ∧
    evaluate_cluster "t" [("Realm", JValue.str "EXAMPLE.COM")]
        (fun _ => document_without_realm_key) "cl" running_with_sc = .error .keyError :=
  ⟨rfl, rfl⟩

/-- Claim C9: when the parameter validator succeeds it returns the input
mapping itself, unchanged: no key removed, no unrecognized key rejected,
no value converted. -/
theorem validator_returns_input_unchanged (ps r : List (String × JValue))
    (h : evaluate_parameters ps = .ok r) : r = ps := by
  unfold evaluate_parameters at h
  repeat' split at h
  any_goals exact Except.noConfusion h
  all_goals injection h with h2
  all_goals subst h2
  · rename_i hemp
    exact (List.isEmpty_iff.mp hemp).symm
  · rfl

theorem validator_returns_input_unchanged_witness :
    ([("Domain", JValue.str "example.com"), ("Extra", JValue.int 3)] : List (String × JValue)) =
      [("Domain", JValue.str "example.com"), ("Extra", JValue.int 3)] :=
  validator_returns_input_unchanged
    [("Domain", JValue.str "example.com"), ("Extra", JValue.int 3)]
    [("Domain", JValue.str "example.com"), ("Extra", JValue.int 3)] rfl

/-- Claim C4: a cluster in a terminated state is NOT_APPLICABLE for every
choice of parameters and security configuration store, and the verdict
does not depend on the store: the status rule short circuits before any
security configuration fetch. -/
theorem terminated_cluster_not_applicable
    (ts state : String) (ps ps2 : List (String × JValue))
    (store store2 : String → JValue) (cid : String) (scfg : Option String)
    (h : state = "TERMINATING" ∨ state = "TERMINATED" ∨ state = "TERMINATED_WITH_ERRORS") :
    evaluate_cluster ts ps store cid ⟨state, scfg⟩ =
      .ok (build_evaluation cid "NOT_APPLICABLE" ts DEFAULT_RESOURCE_TYPE none) ∧
    evaluate_cluster ts ps store cid ⟨state, scfg⟩ =
      evaluate_cluster ts ps2 store2 cid ⟨state, scfg⟩ := by
  have key : ∀ (qs : List (String × JValue)) (st : String → JValue),
      evaluate_cluster ts qs st cid ⟨state, scfg⟩ =
        .ok (build_evaluation cid "NOT_APPLICABLE" ts DEFAULT_RESOURCE_TYPE none) := by
    intro qs st
    rcases h with rfl | rfl | rfl <;> rfl
  exact ⟨key ps store, by rw [key ps store, key ps2 store2]⟩

theorem terminated_cluster_not_applicable_witness :
    evaluate_cluster "t" [] (fun _ => JValue.null) "c1" ⟨"TERMINATED", none⟩ =
      .ok (build_evaluation "c1" "NOT_APPLICABLE" "t" DEFAULT_RESOURCE_TYPE none) :=
  (terminated_cluster_not_applicable "t" "TERMINATED" [] [] (fun _ => JValue.null)
    (fun _ => JValue.null) "c1" none (Or.inr (Or.inl rfl))).1

/-- Claim C8: the orchestrator is deterministic over a snapshot: two runs
over stores that agree pointwise (and the same cluster list, parameters
and timestamp) produce identical verdict sequences. -/
theorem orchestrator_deterministic_on_snapshot
    (ts : String) (ps : List (String × JValue)) (ids : List String)
    (d1 d2 : String → DescribedCluster) (s1 s2 : String → JValue)
    (hd : ∀ c, d1 c = d2 c) (hs : ∀ n, s1 n = s2 n) :
    evaluate_compliance ts ps ids d1 s1 = evaluate_compliance ts ps ids d2 s2 := by
  rw [show d1 = d2 from funext hd, show s1 = s2 from funext hs]

theorem orchestrator_deterministic_on_snapshot_witness :
    evaluate_compliance "t" [] ["c1"] (fun _ => ⟨"TERMINATED", none⟩) (fun _ => JValue.null) =
      evaluate_compliance "t" [] ["c1"] (fun _ => ⟨"TERMINATED", none⟩) (fun _ => JValue.null) :=
  orchestrator_deterministic_on_snapshot "t" [] ["c1"] _ _ _ _ (fun _ => rfl) (fun _ => rfl)

/-- Claim C5 counterexample: with previous verdicts [A, A] and no new
verdicts, the reconciler synthesizes two NOT_APPLICABLE verdicts for the
single resource id A, not exactly one per resource id. -/
theorem reconciler_duplicate_previous_ids :
    clean_up_old_evaluations "t" [] ["A", "A"] =
      [build_evaluation "A" "NOT_APPLICABLE" "t" DEFAULT_RESOURCE_TYPE none,
       build_evaluation "A" "NOT_APPLICABLE" "t" DEFAULT_RESOURCE_TYPE none] ∧
    (clean_up_old_evaluations "t" [] ["A", "A"]).length = 2 :=
  ⟨rfl, rfl⟩

/-- Claim C5 (amended): the reconciler synthesizes one NOT_APPLICABLE
verdict per previous verdict entry whose resource id does not occur among
the new verdicts, in previous order, and prepends them to the new verdicts,
which are returned unchanged and in order; ids in neither input get no
verdict. -/
theorem reconciler_characterization (ts : String) (latest : List Evaluation) (old_ids : List String) :
    clean_up_old_evaluations ts latest old_ids =
      ((old_ids.filter (fun oid => !(latest.any (fun le => oid == le.complianceResourceId)))).map
        (fun oid => build_evaluation oid "NOT_APPLICABLE" ts DEFAULT_RESOURCE_TYPE none)) ++ latest := by
  unfold clean_up_old_evaluations
  rw [foldl_append_filter_map
      (fun oid => !(latest.foldl (fun found latest_eval => if oid == latest_eval.complianceResourceId then true else found) false))
      (fun oid => build_evaluation oid "NOT_APPLICABLE" ts DEFAULT_RESOURCE_TYPE none)
      old_ids []]
  simp only [List.nil_append, foldl_flag_any, Bool.false_or]

/-- Claim C7: the submission step keeps exactly the verdict dicts carrying
all four required fields, in order; a verdict missing any of them is
dropped, and malformed verdicts never abort the handling of the well
formed ones. -/
theorem submission_filter_keeps_well_formed (compliance_result : List (List (String × JValue))) :
    filter_list_compliance_result compliance_result =
      compliance_result.filter
        (fun evaluation => required_evaluation_fields.all (fun field => dictHasKey evaluation field)) ∧
    ∀ evaluation ∈ compliance_result,
      (required_evaluation_fields.all (fun field => dictHasKey evaluation field) = true →
        evaluation ∈ filter_list_compliance_result compliance_result) ∧
      (evaluation_missing_fields evaluation = true →
        evaluation ∉ filter_list_compliance_result compliance_result) := by
  have heq : filter_list_compliance_result compliance_result =
      compliance_result.filter
        (fun evaluation => required_evaluation_fields.all (fun field => dictHasKey evaluation field)) := by
    unfold filter_list_compliance_result
    rw [foldl_append_filter (fun evaluation => !(evaluation_missing_fields evaluation)) compliance_result []]
    simp only [List.nil_append, evaluation_missing_fields_eq, Bool.not_not]
  refine ⟨heq, fun evaluation hmem => ⟨fun hall => ?_, fun hmiss => ?_⟩⟩
  · rw [heq]
    exact List.mem_filter.mpr ⟨hmem, hall⟩
  · rw [heq]
    intro hin
    have hall := (List.mem_filter.mp hin).2
    rw [evaluation_missing_fields_eq, hall] at hmiss
    exact Bool.noConfusion hmiss

/-! ## Orchestrator lemmas and claims -/

theorem evaluate_all_ok_shape (ts : String) (ps : List (String × JValue))
    (describe : String → DescribedCluster) (store : String → JValue) :
    ∀ (ids : List String) (evals : List Evaluation),
      evaluate_all ts ps describe store ids = .ok evals →
      evals.length = ids.length ∧
      ∀ i (hi : i < evals.length) (hj : i < ids.length),
        (evals.get ⟨i, hi⟩).complianceResourceId = ids.get ⟨i, hj⟩ := by
  intro ids
  induction ids with
  | nil =>
    intro evals h
    rw [evaluate_all] at h
    injection h with h2
    subst h2
    exact ⟨rfl, fun i hi hj => absurd hi (by simp)⟩
  | cons cid rest ih =>
    intro evals h
    rw [evaluate_all] at h
    split at h
    · exact Except.noConfusion h
    · rename_i ev hcl
      split at h
      · exact Except.noConfusion h
      · rename_i evs hrest
        injection h with h2
        subst h2
        obtain ⟨hlen, hidx⟩ := ih evs hrest
        refine ⟨by simp [hlen], ?_⟩
        intro i hi hj
        cases i with
        | zero => simpa using evaluate_cluster_ok_resource_id hcl
        | succ n =>
          have hn : n < evs.length := by simpa using hi
          have hn2 : n < rest.length := by simpa using hj
          simpa using hidx n hn hn2

/-- Claim C6 counterexample: a one cluster snapshot whose document lacks
the TicketLifetimeInHours key, with that parameter set, makes the
orchestrator abort with KeyError, producing no verdict at all instead of
exactly one verdict for the one cluster. -/
theorem orchestrator_lookup_failure_no_verdicts :
    evaluate_compliance "t" [("TicketLifetimeInHours", JValue.int 24)] ["cluster-1"]
        (fun _ => running_with_sc) (fun _ => document_without_ticket_key) = .error .keyError :=
  rfl

/-- Claim C6 (amended): whenever the orchestrator returns normally it
produces exactly one verdict per cluster, in enumeration order, the i-th
verdict carrying the i-th cluster id; an empty cluster sequence returns
the distinguished none signal rather than an empty verdict list. -/
theorem orchestrator_one_verdict_per_cluster
    (ts : String) (ps : List (String × JValue)) (ids : List String)
    (describe : String → DescribedCluster) (store : String → JValue) :
    (ids = [] → evaluate_compliance ts ps ids describe store = .ok none) ∧
    ∀ evals, evaluate_compliance ts ps ids describe store = .ok (some evals) →
      evals.length = ids.length ∧
      ∀ i (hi : i < evals.length) (hj : i < ids.length),
        (evals.get ⟨i, hi⟩).complianceResourceId = ids.get ⟨i, hj⟩ := by
  constructor
  · intro hnil
    subst hnil
    rfl
  · intro evals h
    unfold evaluate_compliance at h
    split at h
    · injection h with h2
      exact Option.noConfusion h2
    · split at h
      · exact Except.noConfusion h
      · rename_i evs heq
        injection h with h2
        injection h2 with h3
        subst h3
        exact evaluate_all_ok_shape ts ps describe store ids evs heq

theorem orchestrator_one_verdict_per_cluster_witness :
    ([build_evaluation "c1" "NOT_APPLICABLE" "t" DEFAULT_RESOURCE_TYPE none].length =
      (["c1"] : List String).length) ∧
    evaluate_compliance "t" [] [] (fun _ => (⟨"TERMINATED", none⟩ : DescribedCluster))
      (fun _ => JValue.null) = .ok none := by
  constructor
  · exact ((orchestrator_one_verdict_per_cluster "t" [] ["c1"]
      (fun _ => (⟨"TERMINATED", none⟩ : DescribedCluster)) (fun _ => JValue.null)).2
      [build_evaluation "c1" "NOT_APPLICABLE" "t" DEFAULT_RESOURCE_TYPE none] rfl).1
  · exact (orchestrator_one_verdict_per_cluster "t" [] []
      (fun _ => (⟨"TERMINATED", none⟩ : DescribedCluster)) (fun _ => JValue.null)).1 rfl

/-- Claim C1: with the TicketLifetimeInHours parameter set (as an integer)
and a document whose Kerberos dedicated KDC block carries an integer
TicketLifetimeInHours, a document value strictly below the parameter gives
NON_COMPLIANT with the annotation naming TicketLifetimeInHours, and a
document value at or above the parameter passes the check so that
evaluation proceeds to the cross realm stage; on the worked example
document (value 10), parameter 24 yields NON_COMPLIANT and parameter 5,
with all other set parameters matching, yields COMPLIANT. -/
theorem ticket_lifetime_threshold_rule
    (ts state sc_name cid : String) (ps : List (String × JValue))
    (store : String → JValue) (doc ac kc kdc : JValue) (d p : Int)
    (hstate : terminated_states.contains state = false)
    (hstore : store sc_name = doc)
    (hm1 : pyMem "AuthenticationConfiguration" doc = .ok true)
    (hi1 : pyIndex doc "AuthenticationConfiguration" = .ok ac)
    (hm2 : pyMem "KerberosConfiguration" ac = .ok true)
    (hi2 : pyIndex ac "KerberosConfiguration" = .ok kc)
    (hm3 : pyMem "ClusterDedicatedKdcConfiguration" kc = .ok true)
    (hi3 : pyIndex kc "ClusterDedicatedKdcConfiguration" = .ok kdc)
    (hdoc : pyIndex kdc "TicketLifetimeInHours" = .ok (.int d))
    (hparam : dictGet ps "TicketLifetimeInHours" = some (.int p)) :
    (d < p → evaluate_cluster ts ps store cid ⟨state, some sc_name⟩ =
        .ok (build_evaluation cid "NON_COMPLIANT" ts DEFAULT_RESOURCE_TYPE (some ann_ticket))) ∧
    (¬ d < p → evaluate_cluster ts ps store cid ⟨state, some sc_name⟩ =
        cross_realm_stage ts ps kdc cid) ∧
    evaluate_cluster "t" (example_params 24) (fun _ => example_document) "cl" running_with_sc =
      .ok (build_evaluation "cl" "NON_COMPLIANT" "t" DEFAULT_RESOURCE_TYPE (some ann_ticket)) ∧
    evaluate_cluster "t" (example_params 5) (fun _ => example_document) "cl" running_with_sc =
      .ok (build_evaluation "cl" "COMPLIANT" "t" DEFAULT_RESOURCE_TYPE none) := by
  have hkm : kerberos_configuration_missing doc = .ok false := by
    simp only [kerberos_configuration_missing, hm1, hi1, hm2, hi2, hm3, Bool.not_true]
  have hkd : kdc_details doc = .ok kdc := by
    simp only [kdc_details, hi1, hi2, hi3]
  have hlt : pyLt (.int d) (.int p) = .ok (decide (d < p)) := rfl
  have hrun : evaluate_cluster ts ps store cid ⟨state, some sc_name⟩ =
      (match ticket_lifetime_check ts ps kdc cid with
       | .error e => .error e
       | .ok (some ev) => .ok ev
       | .ok none => cross_realm_stage ts ps kdc cid) := by
    simp only [evaluate_cluster, hstate, hstore, hkm, hkd, Bool.false_eq_true, if_false]
  have htc : ticket_lifetime_check ts ps kdc cid =
      (if d < p then
        .ok (some (build_evaluation cid "NON_COMPLIANT" ts DEFAULT_RESOURCE_TYPE (some ann_ticket)))
      else .ok none) := by
    simp only [ticket_lifetime_check, hparam, hdoc, hlt]
    by_cases hdp : d < p
    · simp [hdp]
    · simp [hdp]
  refine ⟨?_, ?_, rfl, rfl⟩
  · intro hdp
    rw [hrun, htc]
    simp [hdp]
  · intro hdp
    rw [hrun, htc]
    simp [hdp]

theorem ticket_lifetime_threshold_rule_witness :
    ((10 : Int) < 24) ∧
    evaluate_cluster "t" (example_params 24) (fun _ => example_document) "cl" running_with_sc =
      .ok (build_evaluation "cl" "NON_COMPLIANT" "t" DEFAULT_RESOURCE_TYPE (some ann_ticket)) :=
  ⟨by decide,
    (ticket_lifetime_threshold_rule "t" "RUNNING" "kerberos-sc" "cl" (example_params 24)
      (fun _ => example_document) example_document example_ac example_kc example_kdc 10 24
      rfl rfl rfl rfl rfl rfl rfl rfl rfl rfl).1 (by decide)⟩

/-! ## Validator totality lemmas and claims -/

theorem getLast?_some_of_ne_nil {α : Type} {l : List α} (h : l ≠ []) : ∃ c, l.getLast? = some c := by
  cases l with
  | nil => exact absurd rfl h
  | cons a as => exact ⟨(a :: as).getLast (by simp), List.getLast?_eq_getLast _ (by simp)⟩

theorem is_valid_hostname_total_str {s : String} (hne : s.toList ≠ []) (ty : String) :
    ∃ b, is_valid_hostname (.str s) ty = .ok b := by
  obtain ⟨c, hc⟩ := getLast?_some_of_ne_nil hne
  by_cases hlen : s.length > 255
  · exact ⟨false, by simp [is_valid_hostname, pyLen, hlen]⟩
  · refine ⟨valid_hostname_chars (strip_trailing_dot s.toList) ty, ?_⟩
    have hc2 : s.data.getLast? = some c := hc
    simp [is_valid_hostname, pyLen, hlen, hc2]

theorem realm_check_never_fails (ps : List (String × JValue))
    (hstr : ∀ kv ∈ ps, ∃ s, kv.2 = JValue.str s) :
    ∃ b, realm_param_invalid ps = .ok b := by
  unfold realm_param_invalid
  cases hget : dictGet ps "Realm" with
  | none => exact ⟨false, rfl⟩
  | some v =>
    obtain ⟨s, hs⟩ := hstr ("Realm", v) (dictGet_mem hget)
    subst hs
    by_cases hup : pyIsUpper (pyStr (JValue.str s)) = true
    · have hany : s.toList.any Char.isAlpha = true := by
        have h2 := hup
        unfold pyIsUpper pyStr at h2
        exact (Bool.and_eq_true_iff.mp h2).1
      have hne : s.toList ≠ [] := by
        intro hnil
        rw [hnil] at hany
        simp at hany
      obtain ⟨b, hb⟩ := is_valid_hostname_total_str hne "DOMAIN"
      exact ⟨!b, by simp [hup, hb]⟩
    · exact ⟨true, by simp [hup]⟩

theorem hostname_check_never_fails (ps : List (String × JValue)) (key ty : String)
    (hstr : ∀ kv ∈ ps, ∃ s, kv.2 = JValue.str s)
    (hnonempty : ∀ v, dictGet ps key = some v → v ≠ JValue.str "") :
    ∃ b, hostname_param_invalid ps key ty = .ok b := by
  unfold hostname_param_invalid
  cases hget : dictGet ps key with
  | none => exact ⟨false, rfl⟩
  | some v =>
    obtain ⟨s, hs⟩ := hstr (key, v) (dictGet_mem hget)
    subst hs
    have hsne : s ≠ "" := by
      intro h0
      exact hnonempty _ hget (by rw [h0])
    obtain ⟨b, hb⟩ := is_valid_hostname_total_str (string_toList_ne_nil hsne) ty
    exact ⟨!b, by simp [hb]⟩

theorem ticket_check_false {ps : List (String × JValue)}
    (h : ticket_param_invalid ps = false) :
    ∀ v, dictGet ps "TicketLifetimeInHours" = some v → pyIsNumeric (pyStr v) = true := by
  intro v hv
  unfold ticket_param_invalid at h
  rw [hv] at h
  simpa using h

theorem realm_check_ok_false {ps : List (String × JValue)}
    (h : realm_param_invalid ps = .ok false) :
    ∀ v, dictGet ps "Realm" = some v →
      pyIsUpper (pyStr v) = true ∧ is_valid_hostname v "DOMAIN" = .ok true := by
  intro v hv
  unfold realm_param_invalid at h
  simp only [hv] at h
  by_cases hup : pyIsUpper (pyStr v) = true
  · refine ⟨hup, ?_⟩
    cases hh : is_valid_hostname v "DOMAIN" with
    | error e => simp [hup, hh] at h
    | ok b =>
      simp [hup, hh] at h
      rw [h]
  · rw [Bool.not_eq_true] at hup
    simp [hup] at h

theorem hostname_check_ok_false {ps : List (String × JValue)} {key ty : String}
    (h : hostname_param_invalid ps key ty = .ok false) :
    ∀ v, dictGet ps key = some v → is_valid_hostname v ty = .ok true := by
  intro v hv
  unfold hostname_param_invalid at h
  simp only [hv] at h
  cases hh : is_valid_hostname v ty with
  | error e => simp [hh] at h
  | ok b =>
    simp [hh] at h
    rw [h]

/-- Claim C2 counterexample: on the string valued map with Domain equal to
the empty string, the validator raises IndexError (hostname[-1] on the
empty string), which is neither a normal return nor an InvalidParameter
error naming one of the five parameters. -/
theorem validator_empty_domain_index_failure :
    evaluate_parameters [("Domain", JValue.str "")] = .error .indexError ∧
    ok_outcome (evaluate_parameters [("Domain", JValue.str "")]) = false ∧
    invalid_parameter_outcome (evaluate_parameters [("Domain", JValue.str "")]) = false :=
  ⟨rfl, rfl, rfl⟩

/-- Claim C2 (amended): over string valued parameter maps whose Domain,
AdminServer and KdcServer values, when present, are nonempty, the
validator terminates with either the parameters or a ValueError naming one
of the five recognized parameters; and whenever it returns normally, every
present recognized parameter satisfies its syntax check (numeric ticket
lifetime, uppercase valid DOMAIN realm, valid DOMAIN domain, valid FQDN
admin and KDC servers).  An empty string value for Domain, AdminServer or
KdcServer instead raises an uncaught IndexError. -/
theorem validator_totality_amended (ps : List (String × JValue))
    (hstr : ∀ kv ∈ ps, ∃ s, kv.2 = JValue.str s)
    (hne : ∀ kv ∈ ps, (kv.1 = "Domain" ∨ kv.1 = "AdminServer" ∨ kv.1 = "KdcServer") →
      kv.2 ≠ JValue.str "") :
    ((∃ r, evaluate_parameters ps = .ok r) ∨
      (∃ n, evaluate_parameters ps = .error (.valueError n) ∧
        n ∈ (["TicketLifetimeInHours", "Realm", "Domain", "AdminServer", "KdcServer"] : List String))) ∧
    (∀ r, evaluate_parameters ps = .ok r →
      (∀ v, dictGet ps "TicketLifetimeInHours" = some v → pyIsNumeric (pyStr v) = true) ∧
      (∀ v, dictGet ps "Realm" = some v →
        pyIsUpper (pyStr v) = true ∧ is_valid_hostname v "DOMAIN" = .ok true) ∧
      (∀ v, dictGet ps "Domain" = some v → is_valid_hostname v "DOMAIN" = .ok true) ∧
      (∀ v, dictGet ps "AdminServer" = some v → is_valid_hostname v "FQDN" = .ok true) ∧
      (∀ v, dictGet ps "KdcServer" = some v → is_valid_hostname v "FQDN" = .ok true)) := by
  constructor
  · by_cases h0 : ps.isEmpty = true
    · exact Or.inl ⟨[], by simp [evaluate_parameters, h0]⟩
    · obtain ⟨b1, hb1⟩ := realm_check_never_fails ps hstr
      obtain ⟨b2, hb2⟩ := hostname_check_never_fails ps "Domain" "DOMAIN" hstr
        (fun v hv => hne ("Domain", v) (dictGet_mem hv) (Or.inl rfl))
      obtain ⟨b3, hb3⟩ := hostname_check_never_fails ps "AdminServer" "FQDN" hstr
        (fun v hv => hne ("AdminServer", v) (dictGet_mem hv) (Or.inr (Or.inl rfl)))
      obtain ⟨b4, hb4⟩ := hostname_check_never_fails ps "KdcServer" "FQDN" hstr
        (fun v hv => hne ("KdcServer", v) (dictGet_mem hv) (Or.inr (Or.inr rfl)))
      cases ht : ticket_param_invalid ps with
      | true => exact Or.inr ⟨"TicketLifetimeInHours",
          by simp [evaluate_parameters, h0, ht], by simp⟩
      | false =>
        cases b1 with
        | true => exact Or.inr ⟨"Realm",
            by simp [evaluate_parameters, h0, ht, hb1], by simp⟩
        | false =>
          cases b2 with
          | true => exact Or.inr ⟨"Domain",
              by simp [evaluate_parameters, h0, ht, hb1, hb2], by simp⟩
          | false =>
            cases b3 with
            | true => exact Or.inr ⟨"AdminServer",
                by simp [evaluate_parameters, h0, ht, hb1, hb2, hb3], by simp⟩
            | false =>
              cases b4 with
              | true => exact Or.inr ⟨"KdcServer",
                  by simp [evaluate_parameters, h0, ht, hb1, hb2, hb3, hb4], by simp⟩
              | false => exact Or.inl ⟨ps,
                  by simp [evaluate_parameters, h0, ht, hb1, hb2, hb3, hb4]⟩
  · intro r hok
    unfold evaluate_parameters at hok
    repeat' split at hok
    any_goals exact Except.noConfusion hok
    · rename_i hemp
      have hnil : ps = [] := List.isEmpty_iff.mp hemp
      subst hnil
      refine ⟨?_, ?_, ?_, ?_, ?_⟩ <;> (intro v hv; exact Option.noConfusion hv)
    · have ht2 : ticket_param_invalid ps = false := by
        rw [← Bool.not_eq_true]
        assumption
      exact ⟨ticket_check_false ht2, realm_check_ok_false (by assumption),
        hostname_check_ok_false (by assumption), hostname_check_ok_false (by assumption),
        hostname_check_ok_false (by assumption)⟩

theorem validator_totality_amended_witness :
    (∀ kv ∈ ([("Realm", JValue.str "EXAMPLE.COM"), ("Domain", JValue.str "example.com")] :
        List (String × JValue)), ∃ s, kv.2 = JValue.str s) ∧
    ((∃ r, evaluate_parameters
        [("Realm", JValue.str "EXAMPLE.COM"), ("Domain", JValue.str "example.com")] = .ok r) ∨
      (∃ n, evaluate_parameters
          [("Realm", JValue.str "EXAMPLE.COM"), ("Domain", JValue.str "example.com")] =
          .error (.valueError n) ∧
        n ∈ (["TicketLifetimeInHours", "Realm", "Domain", "AdminServer", "KdcServer"] : List String))) := by
  have h1 : ∀ kv ∈ ([("Realm", JValue.str "EXAMPLE.COM"), ("Domain", JValue.str "example.com")] :
      List (String × JValue)), ∃ s, kv.2 = JValue.str s := by
    intro kv hkv
    simp only [List.mem_cons, List.mem_singleton, List.not_mem_nil, or_false] at hkv
    rcases hkv with rfl | rfl
    · exact ⟨"EXAMPLE.COM", rfl⟩
    · exact ⟨"example.com", rfl⟩
  have h2 : ∀ kv ∈ ([("Realm", JValue.str "EXAMPLE.COM"), ("Domain", JValue.str "example.com")] :
      List (String × JValue)),
      (kv.1 = "Domain" ∨ kv.1 = "AdminServer" ∨ kv.1 = "KdcServer") → kv.2 ≠ JValue.str "" := by
    intro kv hkv hkey
    simp only [List.mem_cons, List.mem_singleton, List.not_mem_nil, or_false] at hkv
    rcases hkv with rfl | rfl <;> simp
  exact ⟨h1, (validator_totality_amended _ h1 h2).1⟩

theorem submission_filter_keeps_well_formed_witness :
    ([("ComplianceResourceType", JValue.null), ("ComplianceResourceId", JValue.null),
      ("ComplianceType", JValue.null), ("OrderingTimestamp", JValue.null)] : List (String × JValue)) ∈
      filter_list_compliance_result
        [[("ComplianceResourceType", JValue.null), ("ComplianceResourceId", JValue.null),
          ("ComplianceType", JValue.null), ("OrderingTimestamp", JValue.null)], []] :=
  ((submission_filter_keeps_well_formed
      [[("ComplianceResourceType", JValue.null), ("ComplianceResourceId", JValue.null),
        ("ComplianceType", JValue.null), ("OrderingTimestamp", JValue.null)], []]).2
    [("ComplianceResourceType", JValue.null), ("ComplianceResourceId", JValue.null),
      ("ComplianceType", JValue.null), ("OrderingTimestamp", JValue.null)]
    (List.mem_cons_self _ _)).1 (by decide)
